import Mathlib

/-!
Shallow embedding of the `Storage` component of the s3-like-go object store
(src/main.go): an in-memory cache (`Storage.files`, a Go map from key to
`obj`) over a durable filesystem layer (`os.WriteFile`, `os.ReadFile`,
`os.ReadDir` under `STORAGE_DIR`). Go maps become association lists with
first-match lookup and replace-or-append insertion; the durable layer is a
state holding its files plus fault-injection flags standing for the I/O
errors the `os` calls can return. Byte slices become `List Nat`.
-/

namespace S3Like

/-- The `obj` struct of main.go: an object's name and its body bytes. -/
structure Obj where
  name : String
  body : List Nat
deriving DecidableEq

/-- The Go zero value `obj{}`: empty name, nil body. -/
def zeroObj : Obj := ⟨"", []⟩

/-- First-match lookup in an association list, as a Go map read `m[k]`. -/
def mapLookup {α : Type} : List (String × α) → String → Option α
  | [], _ => none
  | p :: rest, k => if p.1 = k then some p.2 else mapLookup rest k

/-- Replace-or-append insertion, as a Go map write `m[k] = v`. -/
def mapInsert {α : Type} : List (String × α) → String → α → List (String × α)
  | [], k, v => [(k, v)]
  | p :: rest, k, v => if p.1 = k then (k, v) :: rest else p :: mapInsert rest k v

/-- Outcome of the durable write `os.WriteFile` (nil error or an I/O error). -/
inductive PutResult
  | ok
  | ioError
deriving DecidableEq

/-- Outcome of the durable read `os.ReadFile`; Go reports both failure cases
through a non-nil `error`, kept distinct here so a theorem can talk about
which one occurred. -/
inductive GetResult
  | ok (data : List Nat)
  | notFound
  | ioError
deriving DecidableEq

/-- The durable layer under `STORAGE_DIR`: its files, plus fault-injection
flags standing for the error returns of `os.WriteFile`, `os.ReadFile` and
`os.ReadDir`. -/
structure Durable where
  dfiles : List (String × List Nat)
  putErr : Bool
  getErr : Bool
  listErr : Bool
deriving DecidableEq

/-- `os.WriteFile(STORAGE_DIR + "/" + key, data, 0644)`: creates or truncates
the file unconditionally on success. -/
def dput (d : Durable) (key : String) (data : List Nat) : PutResult × Durable :=
  if d.putErr then (.ioError, d)
  else (.ok, { d with dfiles := mapInsert d.dfiles key data })

/-- `os.ReadFile(STORAGE_DIR + "/" + key)`. -/
def dget (d : Durable) (key : String) : GetResult :=
  if d.getErr then .ioError
  else
    match mapLookup d.dfiles key with
    | some data => .ok data
    | none => .notFound

/-- The `Storage` struct of main.go: the cache map plus the durable layer it
writes through to (the mutex is the serialization already implicit in
treating each operation as one atomic step). -/
structure Storage where
  files : List (String × Obj)
  durable : Durable
deriving DecidableEq

/-- Outcome of `Storage.Save`: nil, the "already exists" error, or the
propagated `os.WriteFile` error. -/
inductive SaveResult
  | ok
  | alreadyExists
  | writeError
deriving DecidableEq

/-- `Storage.Save` (main.go:35-52): reject if the key is in the cache map,
otherwise insert into the cache first and then attempt the durable write,
returning the write's error if it fails (the cache insert is not undone). -/
def save (s : Storage) (key : String) (data : List Nat) : SaveResult × Storage :=
  if (mapLookup s.files key).isSome then (.alreadyExists, s)
  else
    let s1 : Storage := { s with files := mapInsert s.files key ⟨key, data⟩ }
    let pr := dput s1.durable key data
    if pr.1 = PutResult.ioError then (.writeError, { s1 with durable := pr.2 })
    else (.ok, { s1 with durable := pr.2 })

/-- `Storage.Load` (main.go:55-74): cache hit returns the cached object; on a
miss, a successful disk read caches `obj{name: key, body: file}` but the
function returns the variable `data`, which at that point is the zero-valued
`obj{}` from the failed map lookup — so the returned body is empty, not
`file`. Any disk-read error is collapsed to `(obj{}, false)`. -/
def load (s : Storage) (key : String) : (Obj × Bool) × Storage :=
  match mapLookup s.files key with
  | some o => ((o, true), s)
  | none =>
    match dget s.durable key with
    | .ok file => ((zeroObj, true), { s with files := mapInsert s.files key ⟨key, file⟩ })
    | .notFound => ((zeroObj, false), s)
    | .ioError => ((zeroObj, false), s)

/-- Outcome of `os.ReadDir(STORAGE_DIR)` inside HandleList. -/
inductive DlistResult
  | ok (names : List String)
  | ioError
deriving DecidableEq

/-- `os.ReadDir(STORAGE_DIR)`: the durable file names, or an error. -/
def dlist (d : Durable) : DlistResult :=
  if d.listErr then .ioError else .ok (d.dfiles.map Prod.fst)

/-- Outcome of `HandleList`: `fatalAbort` stands for the `log.Panicf` call
that aborts the request-handling process instead of returning; `ok` carries
the `{Name, InCach}` entries that are JSON-encoded to the client. -/
inductive ListOutcome
  | fatalAbort
  | ok (entries : List (String × Bool))
deriving DecidableEq

/-- `HandleList` (main.go:135-170): panic if `os.ReadDir` fails; otherwise
emit every cache key with `InCach=true`, then every directory entry whose
name is not a cache key with `InCach=false`. It never writes to the cache. -/
def handleList (s : Storage) : ListOutcome :=
  match dlist s.durable with
  | .ioError => .fatalAbort
  | .ok fnames =>
    let cacheEntries := s.files.map (fun p => (p.1, true))
    let diskEntries := (fnames.filter (fun n => (mapLookup s.files n).isNone)).map
      (fun n => (n, false))
    .ok (cacheEntries ++ diskEntries)

/-- One storage operation, for stating step-indexed invariants. -/
inductive Op
  | saveOp (key : String) (data : List Nat)
  | loadOp (key : String)
  | listOp

/-- The storage state after one operation; `HandleList` only reads
`storage.files`, so `listOp` leaves the state unchanged. -/
def stepState (s : Storage) : Op → Storage
  | .saveOp k d => (save s k d).2
  | .loadOp k => (load s k).2
  | .listOp => s

/-- A state whose cache is empty while the durable layer holds "a" with body
[1] and no fault is injected: the state after `Save("a",[1])` succeeds and
the process restarts. -/
def diskOnlyState : Storage :=
  { files := [], durable := { dfiles := [("a", [1])], putErr := false, getErr := false, listErr := false } }

/-- An empty-cache state whose durable layer fails the next write. -/
def putFailState : Storage :=
  { files := [], durable := { dfiles := [], putErr := true, getErr := false, listErr := false } }

/-- An empty state whose durable reads fail with an I/O error even though
"k" is durably present. -/
def getFailState : Storage :=
  { files := [], durable := { dfiles := [("k", [7])], putErr := false, getErr := true, listErr := false } }

/-- A fully empty, fault-free state. -/
def emptyState : Storage :=
  { files := [], durable := { dfiles := [], putErr := false, getErr := false, listErr := false } }

/-- An empty state whose durable layer cannot be enumerated. -/
def listFailState : Storage :=
  { files := [], durable := { dfiles := [], putErr := false, getErr := false, listErr := true } }

/-- A state with "a" cached and durably present with body [1]: the state
after `Save("a", [1])` succeeds. -/
def cachedState : Storage :=
  { files := [("a", ⟨"a", [1]⟩)],
    durable := { dfiles := [("a", [1])], putErr := false, getErr := false, listErr := false } }

/-- An empty-cache state with durable keys "a" and "b", as in the spec's
listing-completeness example. -/
def diskABState : Storage :=
  { files := [],
    durable := { dfiles := [("a", [1]), ("b", [2])], putErr := false, getErr := false, listErr := false } }

/-- `diskABState` after `Load("a")` has populated the cache with "a". -/
def loadedABState : Storage := (load diskABState "a").2

theorem mapLookup_mapInsert_self {α : Type} (m : List (String × α)) (k : String) (v : α) :
    mapLookup (mapInsert m k v) k = some v := by
  induction m with
  | nil => simp [mapInsert, mapLookup]
  | cons p rest ih =>
    by_cases hp : p.1 = k
    · simp [mapInsert, hp, mapLookup]
    · simp [mapInsert, hp, mapLookup, ih]

theorem mapLookup_mapInsert_ne {α : Type} (m : List (String × α)) (k k2 : String) (v : α)
    (h : k ≠ k2) : mapLookup (mapInsert m k2 v) k = mapLookup m k := by
  induction m with
  | nil => simp [mapInsert, mapLookup, Ne.symm h]
  | cons p rest ih =>
    by_cases hp : p.1 = k2
    · simp [mapInsert, hp, mapLookup, Ne.symm h]
    · have hred : mapInsert (p :: rest) k2 v = p :: mapInsert rest k2 v := by
        simp [mapInsert, hp]
      rw [hred]
      by_cases hk : p.1 = k <;> simp [mapLookup, hk, ih]

theorem mapLookup_isSome_iff {α : Type} (m : List (String × α)) (k : String) :
    (mapLookup m k).isSome = true ↔ k ∈ m.map Prod.fst := by
  induction m with
  | nil => simp [mapLookup]
  | cons p rest ih =>
    by_cases hp : p.1 = k
    · simp [mapLookup, hp]
    · simp [mapLookup, hp, ih, Ne.symm hp]

theorem mapLookup_eq_none_iff {α : Type} (m : List (String × α)) (k : String) :
    mapLookup m k = none ↔ k ∉ m.map Prod.fst := by
  induction m with
  | nil => simp [mapLookup]
  | cons p rest ih =>
    by_cases hp : p.1 = k
    · simp [mapLookup, hp]
    · simp [mapLookup, hp, ih, Ne.symm hp]

/-- C1: for a key absent from the cache but durably present with body B,
Load must insert the key into the cache and return B with found=true. The
code does insert `obj{name:"a", body:[1]}` into the cache, but returns the
zero-valued `data` from the failed map lookup: found=true with an empty
body, not B — evaluation of the code at the failing input. -/
theorem c1_load_miss_returns_zero_obj :
    (load diskOnlyState "a").1 = (zeroObj, true) ∧
    mapLookup (load diskOnlyState "a").2.files "a" = some ⟨"a", [1]⟩ ∧
    (load diskOnlyState "a").1.1.body ≠ [1] := by
  decide

/-- C2: when the durable write fails, Save must not leave the key in the
cache. The code inserts into the cache before attempting the durable write
and does not undo the insert on failure: Save returns the write error, yet
the key remains cached — evaluation of the code at the failing input. -/
theorem c2_failed_save_leaves_cache_entry :
    (save putFailState "a" [1]).1 = SaveResult.writeError ∧
    mapLookup (save putFailState "a" [1]).2.files "a" = some ⟨"a", [1]⟩ := by
  decide

/-- C5: idempotent read fails on the code. At a state where "a" is durable
with body [1] and not cached, the first Load returns an empty body (the
zero-obj bug) and the second Load, a cache hit, returns [1]: the two
consecutive Loads return different bytes — evaluation at the failing
input. -/
theorem c5_double_load_differs :
    (load diskOnlyState "a").1.1.body = [] ∧
    (load (load diskOnlyState "a").2 "a").1.1.body = [1] ∧
    (load diskOnlyState "a").1.1.body ≠ (load (load diskOnlyState "a").2 "a").1.1.body := by
  decide

/-- C7: Load must distinguish "not found" from "I/O error". In the code both
durable-read failures take the same `err != nil` branch and return the same
`(obj{}, false)`: at a state where the read fails with an I/O error and a
state where the key is simply absent, Load's results are identical, and the
I/O error is reported as found=false (a missing object). -/
theorem c7_error_kinds_collapsed :
    dget getFailState.durable "k" = GetResult.ioError ∧
    dget emptyState.durable "k" = GetResult.notFound ∧
    (load getFailState "k").1 = (load emptyState "k").1 ∧
    (load getFailState "k").1.2 = false := by
  decide

/-- C8: a listing failure must be returned as a typed DurableListError, not
abort the process. In the code `os.ReadDir` failure hits `log.Panicf`:
HandleList aborts instead of returning entries or a typed error —
evaluation at the failing input. -/
theorem c8_list_failure_aborts :
    handleList listFailState = ListOutcome.fatalAbort := by
  decide

/-- C3 counterexample: with "a" present in the durable layer only (cache
empty, no fault), the claim says Save("a", [2]) must fail without mutating
either store; in the code the existence check consults only the cache, so
the call succeeds and overwrites the durable object. -/
theorem c3_counterexample :
    (save diskOnlyState "a" [2]).1 = SaveResult.ok ∧
    mapLookup (save diskOnlyState "a" [2]).2.durable.dfiles "a" = some [2] ∧
    ¬ ((save diskOnlyState "a" [2]).1 ≠ SaveResult.ok ∧
       (save diskOnlyState "a" [2]).2 = diskOnlyState) := by
  decide

/-- C3 amended: Save fails without mutating either store exactly for keys
already present in the cache; a key present only in the durable layer does
not block Save (the call overwrites the durable object). Here the cached
half: for every key in the cache, Save returns AlreadyExists and leaves the
whole state unchanged. -/
theorem c3_save_rejects_cached_key (s : Storage) (k : String)
    (h : (mapLookup s.files k).isSome = true) (data2 : List Nat) :
    (save s k data2).1 = SaveResult.alreadyExists ∧ (save s k data2).2 = s := by
  simp [save, h]

theorem c3_save_rejects_cached_key_witness :
    (mapLookup cachedState.files "a").isSome = true ∧
    ((save cachedState "a" [9]).1 = SaveResult.alreadyExists ∧
     (save cachedState "a" [9]).2 = cachedState) :=
  ⟨by decide, c3_save_rejects_cached_key cachedState "a" (by decide) [9]⟩

/-- C4: after Save(k, data) succeeds, Load(k) is a cache hit returning
(data, true); a further Save(k, data2) returns AlreadyExists and leaves the
state — hence the result of Load(k) — unchanged. -/
theorem c4_save_load_roundtrip (s : Storage) (k : String) (data : List Nat)
    (h : (save s k data).1 = SaveResult.ok) (data2 : List Nat) :
    (load (save s k data).2 k).1 = (⟨k, data⟩, true) ∧
    (save (save s k data).2 k data2).1 = SaveResult.alreadyExists ∧
    (save (save s k data).2 k data2).2 = (save s k data).2 ∧
    (load (save (save s k data).2 k data2).2 k).1 = (⟨k, data⟩, true) := by
  by_cases hm : (mapLookup s.files k).isSome
  · simp [save, hm] at h
  · by_cases hp : s.durable.putErr
    · simp [save, hm, dput, hp] at h
    · have hsv : save s k data =
          (SaveResult.ok, Storage.mk (mapInsert s.files k ⟨k, data⟩)
            (Durable.mk (mapInsert s.durable.dfiles k data)
              s.durable.putErr s.durable.getErr s.durable.listErr)) := by
        simp [save, hm, dput, hp]
      rw [hsv]
      refine ⟨?_, ?_, ?_, ?_⟩ <;> simp [load, save, mapLookup_mapInsert_self]

theorem c4_save_load_roundtrip_witness :
    (save emptyState "a" [1]).1 = SaveResult.ok ∧
    ((load (save emptyState "a" [1]).2 "a").1 = (⟨"a", [1]⟩, true) ∧
     (save (save emptyState "a" [1]).2 "a" [2]).1 = SaveResult.alreadyExists ∧
     (save (save emptyState "a" [1]).2 "a" [2]).2 = (save emptyState "a" [1]).2 ∧
     (load (save (save emptyState "a" [1]).2 "a" [2]).2 "a").1 = (⟨"a", [1]⟩, true)) :=
  ⟨by decide, c4_save_load_roundtrip emptyState "a" [1] (by decide) [2]⟩

/-- C9: for a key absent from both the cache and the durable layer, Load
returns found=false (whether the durable read reports not-found or an I/O
error, the result is `(obj{}, false)`). -/
theorem c9_load_unsaved_not_found (s : Storage) (k : String)
    (hc : mapLookup s.files k = none) (hd : mapLookup s.durable.dfiles k = none) :
    (load s k).1 = (zeroObj, false) := by
  by_cases hg : s.durable.getErr <;> simp [load, hc, dget, hg, hd]

theorem c9_load_unsaved_not_found_witness :
    mapLookup emptyState.files "x" = none ∧
    mapLookup emptyState.durable.dfiles "x" = none ∧
    (load emptyState "x").1 = (zeroObj, false) :=
  ⟨by decide, by decide, c9_load_unsaved_not_found emptyState "x" (by decide) (by decide)⟩

/-- C10: cache monotonicity. If the cache maps k to object o before a single
Save, Load or List step, it still maps k to o afterwards: Save only inserts
keys it found absent, Load only inserts on a cache miss, and HandleList
never writes; no step removes or replaces a cache entry. -/
theorem c10_cache_monotone (s : Storage) (op : Op) (k : String) (o : Obj)
    (h : mapLookup s.files k = some o) :
    mapLookup (stepState s op).files k = some o := by
  cases op with
  | saveOp k2 d =>
    by_cases hm : (mapLookup s.files k2).isSome
    · simp [stepState, save, hm, h]
    · have hne : k ≠ k2 := by
        intro he
        subst he
        simp [h] at hm
      by_cases hp : s.durable.putErr <;>
        simp [stepState, save, hm, dput, hp, mapLookup_mapInsert_ne _ _ _ _ hne, h]
  | loadOp k2 =>
    cases hml : mapLookup s.files k2 with
    | some o2 => simp [stepState, load, hml, h]
    | none =>
      have hne : k ≠ k2 := by
        intro he
        subst he
        rw [h] at hml
        cases hml
      cases hg : dget s.durable k2 with
      | ok file => simp [stepState, load, hml, hg, mapLookup_mapInsert_ne _ _ _ _ hne, h]
      | notFound => simp [stepState, load, hml, hg, h]
      | ioError => simp [stepState, load, hml, hg, h]
  | listOp => exact h

/-- C6: when the durable layer can be enumerated (ReadDir succeeds) and the
cache and durable key sets are duplicate-free (as Go maps and directory
listings are), HandleList returns exactly one entry per key of the union of
the two key sets, with no duplicate names, and every entry's InCach flag
equals the key's residency in the cache map — in particular, for every
durable key, InCach is true iff that key is cached. -/
theorem c6_list_completeness (s : Storage)
    (hc : (s.files.map Prod.fst).Nodup) (hd : (s.durable.dfiles.map Prod.fst).Nodup)
    (hl : s.durable.listErr = false) :
    ∃ entries, handleList s = ListOutcome.ok entries ∧
      (∀ n : String, n ∈ entries.map Prod.fst ↔
        n ∈ s.files.map Prod.fst ∨ n ∈ s.durable.dfiles.map Prod.fst) ∧
      (entries.map Prod.fst).Nodup ∧
      (∀ p ∈ entries, p.2 = (mapLookup s.files p.1).isSome) := by
  refine ⟨s.files.map (fun p => (p.1, true)) ++
    ((s.durable.dfiles.map Prod.fst).filter
      (fun n => (mapLookup s.files n).isNone)).map (fun n => (n, false)), ?_, ?_, ?_, ?_⟩
  · simp [handleList, dlist, hl]
  · intro n
    rw [List.map_append, List.map_map, List.map_map]
    have h1 : (Prod.fst ∘ fun p : String × Obj => (p.1, true)) = Prod.fst := rfl
    have h2 : (Prod.fst ∘ fun m : String => (m, false)) = id := rfl
    rw [h1, h2, List.map_id, List.mem_append, List.mem_filter]
    constructor
    · rintro (hn | ⟨hn, h3⟩)
      · exact Or.inl hn
      · exact Or.inr hn
    · rintro (hn | hn)
      · exact Or.inl hn
      · by_cases hmem : n ∈ s.files.map Prod.fst
        · exact Or.inl hmem
        · refine Or.inr ⟨hn, ?_⟩
          simp [Option.isNone_iff_eq_none, mapLookup_eq_none_iff, hmem]
  · rw [List.map_append, List.map_map, List.map_map]
    have h1 : (Prod.fst ∘ fun p : String × Obj => (p.1, true)) = Prod.fst := rfl
    have h2 : (Prod.fst ∘ fun m : String => (m, false)) = id := rfl
    rw [h1, h2, List.map_id]
    refine List.Nodup.append hc (hd.filter _) ?_
    intro n hn1 hn2
    have hnone := (List.mem_filter.mp hn2).2
    rw [Option.isNone_iff_eq_none, mapLookup_eq_none_iff] at hnone
    exact hnone hn1
  · intro p hp
    rcases List.mem_append.mp hp with h1 | h2
    · rcases List.mem_map.mp h1 with ⟨q, hq, rfl⟩
      have hq1 : (mapLookup s.files q.1).isSome = true := by
        rw [mapLookup_isSome_iff]
        exact List.mem_map.mpr ⟨q, hq, rfl⟩
      simp [hq1]
    · rcases List.mem_map.mp h2 with ⟨n, hn, rfl⟩
      have hnone := (List.mem_filter.mp hn).2
      simp only [Option.isNone_iff_eq_none] at hnone
      simp [hnone]

theorem c6_list_completeness_witness :
    ((loadedABState.files.map Prod.fst).Nodup ∧
     (loadedABState.durable.dfiles.map Prod.fst).Nodup ∧
     loadedABState.durable.listErr = false) ∧
    (∃ entries, handleList loadedABState = ListOutcome.ok entries ∧
      (∀ n : String, n ∈ entries.map Prod.fst ↔
        n ∈ loadedABState.files.map Prod.fst ∨
        n ∈ loadedABState.durable.dfiles.map Prod.fst) ∧
      (entries.map Prod.fst).Nodup ∧
      (∀ p ∈ entries, p.2 = (mapLookup loadedABState.files p.1).isSome)) :=
  ⟨⟨by decide, by decide, by decide⟩,
    c6_list_completeness loadedABState (by decide) (by decide) (by decide)⟩

theorem c10_cache_monotone_witness :
    mapLookup cachedState.files "a" = some ⟨"a", [1]⟩ ∧
    mapLookup (stepState cachedState (Op.saveOp "b" [2])).files "a" = some ⟨"a", [1]⟩ :=
  ⟨by decide, c10_cache_monotone cachedState (Op.saveOp "b" [2]) "a" ⟨"a", [1]⟩ (by decide)⟩

end S3Like
